import Mathlib

/-!
A shallow embedding of the DogStatsd client core
(datadog/dogstatsd/base.py): the buffering/flush engine, the
socket-failure classification of the transmit path, the self-telemetry
counters, the metric/event serializers and the escaping helpers.

Python mutable object state is modelled by the explicit state record
`DState`, every mutating method becomes a state-passing function, and
the two sources of nondeterminism (the socket-send outcome and the
wall clock) are threaded as explicit parameters.  Strings are Lean
`String`s; Python `len` on a string is `String.length` (both count
code points).  Times and sample rates are rationals.
-/

namespace DogStatsd

/-- UDP default for the maximum buffered payload length (bytes). -/
def UDP_OPTIMAL_PAYLOAD_LENGTH : Nat := 1432

/-- UDS default for the maximum buffered payload length (bytes). -/
def UDS_OPTIMAL_PAYLOAD_LENGTH : Nat := 8192

/-- Below this flush interval the periodic flush thread is not started. -/
def MIN_FLUSH_INTERVAL : ℚ := 1 / 10000

/-- Linux errno value for EAGAIN (send would block). -/
def EAGAIN : Nat := 11

/-- Linux errno value for ENOBUFS (no buffer space available). -/
def ENOBUFS : Nat := 105

/-- Linux errno value for EMSGSIZE (message too long). -/
def EMSGSIZE : Nat := 90

/-- Which bound method `self._send` currently points at. -/
inductive SendMode
  | direct
  | buffered
deriving DecidableEq, Repr

/-- Trace items recording the flush-thread lifecycle operations. -/
inductive ThreadOp
  | started
  | stopSet
  | joined
  | stopCleared
deriving DecidableEq, Repr

/-- Outcome of one `socket.send` call, the environment's choice. -/
inductive SendOutcome
  | ok
  | timeout
  | herror
  | gaierror
  | sockErr (e : Nat)
  | otherExc
deriving DecidableEq, Repr

/-- Python exception classes that appear in `_xmit_packet` and `event`. -/
inductive PyExc
  | socketTimeout
  | herror
  | gaierror
  | socketError (e : Nat)
  | otherExc
  | valueError
deriving DecidableEq, Repr

/-- The mutable state of one `DogStatsd` client object, plus three
observation traces (`serverCalls`, `sentDatagrams`, `threadTrace`)
that record the payloads handed to `_send_to_server`, the datagrams
actually written to a socket, and the flush-thread operations. -/
structure DState where
  enabled : Bool
  telemetry : Bool
  maxPayloadSize : Nat
  buffer : List String
  currentBufferTotalSize : Nat
  metricsCount : Nat
  eventsCount : Nat
  serviceChecksCount : Nat
  bytesSent : Nat
  bytesDropped : Nat
  packetsSent : Nat
  packetsDropped : Nat
  lastFlushTime : ℚ
  telemetryFlushInterval : ℚ
  sock : Option Nat
  telemetrySock : Option Nat
  nextSock : Nat
  telemetrySocketPath : Option String
  telemetryHost : Option String
  nameSpace : Option String
  constantTags : List String
  containerId : Option String
  defaultSampleRate : ℚ
  disableBufferingFlag : Bool
  sendMode : SendMode
  flushThread : Option Unit
  flushThreadStop : Bool
  flushInterval : ℚ
  clientTags : List String
  serverCalls : List String
  sentDatagrams : List String
  threadTrace : List ThreadOp
deriving Repr, DecidableEq

/-- Python truthiness of an optional string (None and "" are falsy). -/
def pyTruthyStr : Option String → Bool
  | none => false
  | some s => s ≠ ""

/-- `_dedicated_telemetry_destination`:
`bool(self.telemetry_socket_path or self.telemetry_host)`. -/
def dedicatedTelemetryDestination (s : DState) : Bool :=
  pyTruthyStr s.telemetrySocketPath || pyTruthyStr s.telemetryHost

/-- The lazy socket acquisition of `_xmit_packet`/`get_socket`: use the
cached socket for the requested destination, creating a fresh one
(`nextSock` is the fresh handle supply) when absent. -/
def ensureSock (s : DState) (forTelemetry : Bool) : DState :=
  if forTelemetry && dedicatedTelemetryDestination s then
    match s.telemetrySock with
    | some _ => s
    | none => { s with telemetrySock := some s.nextSock, nextSock := s.nextSock + 1 }
  else
    match s.sock with
    | some _ => s
    | none => { s with sock := some s.nextSock, nextSock := s.nextSock + 1 }

/-- `close_socket`: close and discard both cached sockets. -/
def closeSocket (s : DState) : DState :=
  { s with sock := none, telemetrySock := none }

/-- The drop accounting performed after the try/except of
`_xmit_packet`: only for non-telemetry packets and only when telemetry
collection is enabled. -/
def xmitDropCount (s : DState) (packet : String) (isTelemetry : Bool) : DState :=
  if !isTelemetry && s.telemetry then
    { s with
      bytesDropped := s.bytesDropped + packet.length,
      packetsDropped := s.packetsDropped + 1 }
  else s

/-- `_xmit_packet` with the try/except structure made explicit: the
result is `Except.ok` whenever some handler (or the trailing bare
`except Exception`) absorbs the failure, and would be `Except.error`
only for an exception no handler catches. -/
def xmitPacketE (s : DState) (packet : String) (isTelemetry : Bool)
    (o : SendOutcome) : Except PyExc (DState × Bool) :=
  let s := ensureSock s isTelemetry
  match o with
  | .ok =>
    let s := { s with sentDatagrams := s.sentDatagrams ++ [packet] }
    let s :=
      if !isTelemetry && s.telemetry then
        { s with
          packetsSent := s.packetsSent + 1,
          bytesSent := s.bytesSent + packet.length }
      else s
    .ok (s, true)
  | .timeout =>
    -- socket.timeout handler: drop the packet, keep the socket
    .ok (xmitDropCount s packet isTelemetry, false)
  | .herror =>
    -- socket.herror handler: drop the packet and close the socket
    .ok (xmitDropCount (closeSocket s) packet isTelemetry, false)
  | .gaierror =>
    -- socket.gaierror handler: drop the packet and close the socket
    .ok (xmitDropCount (closeSocket s) packet isTelemetry, false)
  | .sockErr e =>
    -- socket.error handler, dispatching on errno
    if e = EAGAIN then .ok (xmitDropCount s packet isTelemetry, false)
    else if e = ENOBUFS then .ok (xmitDropCount s packet isTelemetry, false)
    else if e = EMSGSIZE then .ok (xmitDropCount s packet isTelemetry, false)
    else .ok (xmitDropCount (closeSocket s) packet isTelemetry, false)
  | .otherExc =>
    -- bare except Exception handler: log only
    .ok (xmitDropCount s packet isTelemetry, false)

/-- Total view of `_xmit_packet`; the error fallback is dead code
(every outcome is absorbed, see the C4 theorem). -/
def xmitPacket (s : DState) (packet : String) (isTelemetry : Bool)
    (o : SendOutcome) : DState × Bool :=
  match xmitPacketE s packet isTelemetry o with
  | .ok r => r
  | .error _ => (s, false)

/-- `_reset_telemetry`: zero all seven counters and stamp the flush
time (`time.time()` is the explicit `now` parameter). -/
def resetTelemetry (s : DState) (now : ℚ) : DState :=
  { s with
    metricsCount := 0,
    eventsCount := 0,
    serviceChecksCount := 0,
    bytesSent := 0,
    bytesDropped := 0,
    packetsSent := 0,
    packetsDropped := 0,
    lastFlushTime := now }

/-- `_add_constant_tags`. -/
def addConstantTags (s : DState) (tags : List String) : List String :=
  if s.constantTags ≠ [] then
    if tags ≠ [] then tags ++ s.constantTags
    else s.constantTags
  else tags

/-- Stand-in for Python `str()` on a sample rate; only used as an
uninterpreted rendering function. -/
def pyFloatStr (q : ℚ) : String := toString q

/-- Modelled from the spec: `normalize_tags` lives in
`datadog/util/format.py`, which is not part of this repository
snapshot.  The spec's serializer contract writes the tag list into the
packet as `|#<tag1>,<tag2>,...` with no mention of any per-tag
rewriting, so the normalization is modelled as the identity on the
list of tags. -/
def normalizeTags (tags : List String) : List String := tags

/-- `_flush_telemetry`: the seven-line telemetry payload built from
`TELEMETRY_FORMATTING_STR`. -/
def flushTelemetry (s : DState) : String :=
  let telemetryTags := String.intercalate "," (addConstantTags s s.clientTags)
  "datadog.dogstatsd.client.metrics:" ++ toString s.metricsCount
    ++ "|c|#" ++ telemetryTags ++ "\n"
  ++ "datadog.dogstatsd.client.events:" ++ toString s.eventsCount
    ++ "|c|#" ++ telemetryTags ++ "\n"
  ++ "datadog.dogstatsd.client.service_checks:" ++ toString s.serviceChecksCount
    ++ "|c|#" ++ telemetryTags ++ "\n"
  ++ "datadog.dogstatsd.client.bytes_sent:" ++ toString s.bytesSent
    ++ "|c|#" ++ telemetryTags ++ "\n"
  ++ "datadog.dogstatsd.client.bytes_dropped:" ++ toString s.bytesDropped
    ++ "|c|#" ++ telemetryTags ++ "\n"
  ++ "datadog.dogstatsd.client.packets_sent:" ++ toString s.packetsSent
    ++ "|c|#" ++ telemetryTags ++ "\n"
  ++ "datadog.dogstatsd.client.packets_dropped:" ++ toString s.packetsDropped
    ++ "|c|#" ++ telemetryTags ++ "\n"

/-- `_is_telemetry_flush_time`. -/
def isTelemetryFlushTime (s : DState) (now : ℚ) : Bool :=
  s.telemetry && decide (s.lastFlushTime + s.telemetryFlushInterval < now)

/-- The second half of `_send_to_server`: when the telemetry window
has elapsed, build and transmit the telemetry packet; on success
reset the counters and count the telemetry packet as sent, on failure
keep the counters, bump the flush time and attribute the telemetry
packet to the drop counters. -/
def telemetryFlushStep (s1 : DState) (o2 : SendOutcome) (now : ℚ) : DState :=
  if isTelemetryFlushTime s1 now then
    let t := flushTelemetry s1
    let r := xmitPacket s1 t true o2
    if r.2 then
      let s3 := resetTelemetry r.1 now
      { s3 with
        packetsSent := s3.packetsSent + 1,
        bytesSent := s3.bytesSent + t.length }
    else
      { r.1 with
        lastFlushTime := now,
        bytesDropped := r.1.bytesDropped + t.length,
        packetsDropped := r.1.packetsDropped + 1 }
  else s1

/-- `_send_to_server`: transmit the payload (with its trailing line
break), then run the telemetry flush step.  The payload handed in is
recorded in the `serverCalls` trace. -/
def sendToServer (s : DState) (packet : String) (o1 o2 : SendOutcome)
    (now : ℚ) : DState :=
  let s := { s with serverCalls := s.serverCalls ++ [packet] }
  telemetryFlushStep (xmitPacket s (packet ++ "\n") false o1).1 o2 now

/-- `_reset_buffer`. -/
def resetBuffer (s : DState) : DState :=
  { s with currentBufferTotalSize := 0, buffer := [] }

/-- `flush`: when the buffer is non-empty, join the packets with the
line separator, hand the joined payload to `_send_to_server`, then
reset the buffer; no-op on an empty buffer. -/
def flush (s : DState) (o1 o2 : SendOutcome) (now : ℚ) : DState :=
  if s.buffer ≠ [] then
    resetBuffer (sendToServer s (String.intercalate "\n" s.buffer) o1 o2 now)
  else s

/-- `_should_flush`. -/
def shouldFlush (s : DState) (lengthToBeAdded : Nat) : Bool :=
  decide (s.currentBufferTotalSize + lengthToBeAdded + 1 > s.maxPayloadSize)

/-- `_send_to_buffer`: flush first when the new packet would overflow
the configured payload size, then append it and account its length
plus one separator byte. -/
def sendToBuffer (s : DState) (packet : String) (o1 o2 : SendOutcome)
    (now : ℚ) : DState :=
  let s := if shouldFlush s packet.length then flush s o1 o2 now else s
  { s with
    buffer := s.buffer ++ [packet],
    currentBufferTotalSize := s.currentBufferTotalSize + packet.length + 1 }

/-- The `self._send` indirection: direct sends go to
`_send_to_server`, buffered sends to `_send_to_buffer`. -/
def sendDispatch (s : DState) (payload : String) (o1 o2 : SendOutcome)
    (now : ℚ) : DState :=
  match s.sendMode with
  | .direct => sendToServer s payload o1 o2 now
  | .buffered => sendToBuffer s payload o1 o2 now

/-- `_serialize_metric`.  The metric value is carried as its rendered
string (Python interpolates it with `%s`). -/
def serializeMetric (s : DState) (metric : String) (metricType : String)
    (value : String) (tags : List String) (sampleRate : ℚ) : String :=
  (match s.nameSpace with
   | some ns => ns ++ "."
   | none => "")
  ++ metric ++ ":" ++ value ++ "|" ++ metricType
  ++ (if sampleRate ≠ 1 then "|@" ++ pyFloatStr sampleRate else "")
  ++ (if tags ≠ [] then
        "|#" ++ String.intercalate "," (normalizeTags tags)
      else "")
  ++ (match s.containerId with
      | some cid => "|c:" ++ cid
      | none => "")

/-- `_report`: `value is None` is a silent no-op, as is a disabled
client; the telemetry metric counter is bumped before the sampling
decision; `r` is the value drawn by `random()`. -/
def report (s : DState) (metric metricType : String)
    (value : Option String) (tags : List String)
    (sampleRate : Option ℚ) (r : ℚ) (o1 o2 : SendOutcome)
    (now : ℚ) : DState :=
  match value with
  | none => s
  | some v =>
    if s.enabled ≠ true then s
    else
      let s :=
        if s.telemetry then { s with metricsCount := s.metricsCount + 1 }
        else s
      let rate := sampleRate.getD s.defaultSampleRate
      if rate ≠ 1 ∧ r > rate then s
      else
        let tags := addConstantTags s tags
        let payload := serializeMetric s metric metricType v tags rate
        sendDispatch s payload o1 o2 now

/-- Python `str.replace(pat, rep)`: replace every non-overlapping
occurrence of `pat`, scanning left to right. -/
def pyReplace (pat rep : List Char) : List Char → List Char
  | [] => []
  | c :: rest =>
    if pat ≠ [] ∧ pat.isPrefixOf (c :: rest) then
      rep ++ pyReplace pat rep ((c :: rest).drop pat.length)
    else
      c :: pyReplace pat rep rest
termination_by l => l.length
decreasing_by
  · simp only [List.length_drop, List.length_cons]
    rcases pat with _ | ⟨p, ps⟩
    · simp_all
    · simp only [List.length_cons]
      omega
  · simp

/-- `_escape_event_content`: `string.replace("\n", "\\n")`. -/
def escapeEventContent (s : String) : String :=
  String.mk (pyReplace ['\n'] ['\\', 'n'] s.data)

/-- `_escape_service_check_message`:
`string.replace("\n", "\\n").replace("m:", "m\\:")`. -/
def escapeServiceCheckMessage (s : String) : String :=
  String.mk (pyReplace ['m', ':'] ['m', '\\', ':']
    (pyReplace ['\n'] ['\\', 'n'] s.data))

/-- Python truthiness of an optional integer field (None and 0 falsy),
used for `date_happened`. -/
def pyTruthyInt : Option Int → Bool
  | none => false
  | some n => n ≠ 0

/-- The serialized event payload built by `event` before the size
check: title and message are escaped, the length prefix counts their
UTF-8 bytes, and each truthy optional field appends its section in
source order (d, h, k, p, s, t, tags, container). -/
def eventPayload (s : DState) (title message : String)
    (alertType aggregationKey sourceTypeName : Option String)
    (dateHappened : Option Int) (priority : Option String)
    (tags : List String) (hostname : Option String) : String :=
  let title := escapeEventContent title
  let message := escapeEventContent message
  let tags := addConstantTags s tags
  let str := "_e\x7b" ++ toString title.utf8ByteSize ++ ","
    ++ toString message.utf8ByteSize ++ "\x7d:" ++ title ++ "|" ++ message
  let str := match dateHappened with
    | some d => if d ≠ 0 then str ++ "|d:" ++ toString d else str
    | none => str
  let str := match hostname with
    | some h => if h ≠ "" then str ++ "|h:" ++ h else str
    | none => str
  let str := match aggregationKey with
    | some k => if k ≠ "" then str ++ "|k:" ++ k else str
    | none => str
  let str := match priority with
    | some p => if p ≠ "" then str ++ "|p:" ++ p else str
    | none => str
  let str := match sourceTypeName with
    | some st => if st ≠ "" then str ++ "|s:" ++ st else str
    | none => str
  let str := match alertType with
    | some t => if t ≠ "" then str ++ "|t:" ++ t else str
    | none => str
  let str := if tags ≠ [] then
      str ++ "|#" ++ String.intercalate "," tags
    else str
  let str := match s.containerId with
    | some cid => str ++ "|c:" ++ cid
    | none => str
  str

/-- `event`: serialize, reject payloads longer than 8 KiB with a
`ValueError` before any counter or send-path effect, otherwise bump
the telemetry event counter and hand the payload to `self._send`. -/
def event (s : DState) (title message : String)
    (alertType aggregationKey sourceTypeName : Option String)
    (dateHappened : Option Int) (priority : Option String)
    (tags : List String) (hostname : Option String)
    (o1 o2 : SendOutcome) (now : ℚ) : Except PyExc DState :=
  let str := eventPayload s title message alertType aggregationKey
    sourceTypeName dateHappened priority tags hostname
  if str.length > 8 * 1024 then
    .error .valueError
  else
    let s :=
      if s.telemetry then { s with eventsCount := s.eventsCount + 1 }
      else s
    .ok (sendDispatch s str o1 o2 now)

/-- `_start_flush_thread`: a no-op when buffering is disabled or the
interval is at or below the minimum; otherwise spawn the thread. -/
def startFlushThread (s : DState) : DState :=
  if s.disableBufferingFlag ∨ s.flushInterval ≤ MIN_FLUSH_INTERVAL then s
  else
    { s with
      flushThread := some (),
      threadTrace := s.threadTrace ++ [ThreadOp.started] }

/-- `_stop_flush_thread`: a warning-only no-op when there is no
thread; otherwise flush once, set the stop event, join, null the
thread handle and clear the stop event. -/
def stopFlushThread (s : DState) (o1 o2 : SendOutcome) (now : ℚ) : DState :=
  match s.flushThread with
  | none => s
  | some _ =>
    let s := flush s o1 o2 now
    let s := { s with
      flushThreadStop := true,
      threadTrace := s.threadTrace ++ [ThreadOp.stopSet] }
    let s := { s with
      flushThread := none,
      threadTrace := s.threadTrace ++ [ThreadOp.joined] }
    { s with
      flushThreadStop := false,
      threadTrace := s.threadTrace ++ [ThreadOp.stopCleared] }

/-- The `disable_buffering` property setter: a no-op when the flag
does not change; disabling switches the send path to direct and stops
the flush thread, enabling switches it to buffered and starts the
thread. -/
def setDisableBuffering (s : DState) (isDisabled : Bool)
    (o1 o2 : SendOutcome) (now : ℚ) : DState :=
  if s.disableBufferingFlag = isDisabled then s
  else
    let s := { s with disableBufferingFlag := isDisabled }
    if isDisabled then
      stopFlushThread { s with sendMode := .direct } o1 o2 now
    else
      startFlushThread { s with sendMode := .buffered }

/-- The claim-side characterization of newline escaping: every
newline becomes the two-character sequence backslash-n and no other
character is altered, stated as a per-character substitution. -/
def newlineEscSpec (l : List Char) : List Char :=
  l.flatMap fun c => if c = '\n' then ['\\', 'n'] else [c]

/-- The claim-side characterization of service-check message
escaping: one left-to-right scan that rewrites each occurrence of
"m:" to "m\:", each newline to backslash-n, and copies every other
character unchanged. -/
def scEscSpec : List Char → List Char
  | [] => []
  | [c] => if c = '\n' then ['\\', 'n'] else [c]
  | c :: c2 :: rest =>
    if c = 'm' ∧ c2 = ':' then 'm' :: '\\' :: ':' :: scEscSpec rest
    else if c = '\n' then '\\' :: 'n' :: scEscSpec (c2 :: rest)
    else c :: scEscSpec (c2 :: rest)

/-- A concrete client state used by the witness and counterexample
theorems: telemetry enabled, UDP payload bound, no tags, direct send
mode, an open socket. -/
def testState : DState where
  enabled := true
  telemetry := true
  maxPayloadSize := 1432
  buffer := []
  currentBufferTotalSize := 0
  metricsCount := 0
  eventsCount := 0
  serviceChecksCount := 0
  bytesSent := 0
  bytesDropped := 0
  packetsSent := 0
  packetsDropped := 0
  lastFlushTime := 0
  telemetryFlushInterval := 10
  sock := some 0
  telemetrySock := none
  nextSock := 1
  telemetrySocketPath := none
  telemetryHost := none
  nameSpace := none
  constantTags := []
  containerId := none
  defaultSampleRate := 1
  disableBufferingFlag := true
  sendMode := SendMode.direct
  flushThread := none
  flushThreadStop := false
  flushInterval := 1
  clientTags := ["client:py"]
  serverCalls := []
  sentDatagrams := []
  threadTrace := []

/-- A 9000-character hostname used by the C5 counterexample. -/
def bigHost : String := String.mk (List.replicate 9000 'a')

/-- `testState` with capacity 10 and one 2-character packet buffered. -/
def smallCapState : DState :=
  { testState with
    maxPayloadSize := 10, buffer := ["ab"], currentBufferTotalSize := 3 }

/-- `testState` with capacity 100 and one 2-character packet buffered. -/
def bigCapState : DState :=
  { testState with
    maxPayloadSize := 100, buffer := ["ab"], currentBufferTotalSize := 3 }

/-- `testState` with capacity 4 and an empty buffer. -/
def tinyCapState : DState :=
  { testState with maxPayloadSize := 4 }

/-- `testState` with one constant (global) tag configured. -/
def tagState : DState :=
  { testState with constantTags := ["env:prod"] }

/-- `testState` in buffered mode with a live flush thread. -/
def threadState : DState :=
  { testState with
    disableBufferingFlag := false, sendMode := SendMode.buffered,
    flushThread := some () }

/-! ### Shape lemmas

Each shape lemma lists exactly the record fields an operation may
touch; every other field of the state is untouched, which the later
claim proofs exploit by rewriting with the shape and projecting. -/

/-- `_xmit_packet` always returns normally (the trailing bare
`except Exception` absorbs anything the specific handlers miss) and
may touch only the sockets, the fresh-handle supply, the datagram
trace and the sent/dropped counters. -/
theorem xmitPacketE_shape (s : DState) (p : String) (t : Bool) (o : SendOutcome) :
    ∃ so ts nx sd ps bs bd pd b,
      xmitPacketE s p t o =
        .ok ({ s with
          sock := so, telemetrySock := ts, nextSock := nx,
          sentDatagrams := sd, packetsSent := ps, bytesSent := bs,
          bytesDropped := bd, packetsDropped := pd }, b) := by
  cases o with
  | sockErr e =>
    simp only [xmitPacketE, ensureSock, xmitDropCount, closeSocket]
    by_cases h1 : e = EAGAIN
    · rw [if_pos h1]
      (repeat' split) <;> exact ⟨_, _, _, _, _, _, _, _, _, rfl⟩
    · rw [if_neg h1]
      by_cases h2 : e = ENOBUFS
      · rw [if_pos h2]
        (repeat' split) <;> exact ⟨_, _, _, _, _, _, _, _, _, rfl⟩
      · rw [if_neg h2]
        by_cases h3 : e = EMSGSIZE
        · rw [if_pos h3]
          (repeat' split) <;> exact ⟨_, _, _, _, _, _, _, _, _, rfl⟩
        · rw [if_neg h3]
          (repeat' split) <;> exact ⟨_, _, _, _, _, _, _, _, _, rfl⟩
  | _ =>
    simp only [xmitPacketE, ensureSock, xmitDropCount, closeSocket]
    (repeat' split) <;> exact ⟨_, _, _, _, _, _, _, _, _, rfl⟩

/-- `xmitPacket_shape` restated for the total view. -/
theorem xmitPacket_shape (s : DState) (p : String) (t : Bool) (o : SendOutcome) :
    ∃ so ts nx sd ps bs bd pd,
      (xmitPacket s p t o).1 =
        { s with
          sock := so, telemetrySock := ts, nextSock := nx,
          sentDatagrams := sd, packetsSent := ps, bytesSent := bs,
          bytesDropped := bd, packetsDropped := pd } := by
  obtain ⟨so, ts, nx, sd, ps, bs, bd, pd, b, h⟩ := xmitPacketE_shape s p t o
  exact ⟨so, ts, nx, sd, ps, bs, bd, pd, by rw [xmitPacket, h]⟩

/-- For a telemetry packet `_xmit_packet` touches no counter at all:
both counting blocks are gated on `not is_telemetry`. -/
theorem xmitPacketE_true_shape (s : DState) (p : String) (o : SendOutcome) :
    ∃ so ts nx sd b,
      xmitPacketE s p true o =
        .ok ({ s with
          sock := so, telemetrySock := ts, nextSock := nx,
          sentDatagrams := sd }, b) := by
  cases o with
  | sockErr e =>
    simp only [xmitPacketE, ensureSock, xmitDropCount, closeSocket,
      Bool.not_true, Bool.false_and, Bool.false_eq_true, if_false]
    by_cases h1 : e = EAGAIN
    · rw [if_pos h1]
      (repeat' split) <;> exact ⟨_, _, _, _, _, rfl⟩
    · rw [if_neg h1]
      by_cases h2 : e = ENOBUFS
      · rw [if_pos h2]
        (repeat' split) <;> exact ⟨_, _, _, _, _, rfl⟩
      · rw [if_neg h2]
        by_cases h3 : e = EMSGSIZE
        · rw [if_pos h3]
          (repeat' split) <;> exact ⟨_, _, _, _, _, rfl⟩
        · rw [if_neg h3]
          (repeat' split) <;> exact ⟨_, _, _, _, _, rfl⟩
  | _ =>
    simp only [xmitPacketE, ensureSock, xmitDropCount, closeSocket,
      Bool.not_true, Bool.false_and, Bool.false_eq_true, if_false]
    (repeat' split) <;> exact ⟨_, _, _, _, _, rfl⟩

/-- `xmitPacketE_true_shape` restated for the total view. -/
theorem xmitPacket_true_shape (s : DState) (p : String) (o : SendOutcome) :
    ∃ so ts nx sd,
      (xmitPacket s p true o).1 =
        { s with
          sock := so, telemetrySock := ts, nextSock := nx,
          sentDatagrams := sd } := by
  obtain ⟨so, ts, nx, sd, b, h⟩ := xmitPacketE_true_shape s p o
  exact ⟨so, ts, nx, sd, by rw [xmitPacket, h]⟩

/-- The telemetry flush step may touch only the seven counters, the
flush timestamp, the sockets and the datagram trace. -/
theorem telemetryFlushStep_shape (s1 : DState) (o2 : SendOutcome) (now : ℚ) :
    ∃ mc ec scc bs bd ps pd lft so ts nx sd,
      telemetryFlushStep s1 o2 now =
        { s1 with
          metricsCount := mc, eventsCount := ec, serviceChecksCount := scc,
          bytesSent := bs, bytesDropped := bd, packetsSent := ps,
          packetsDropped := pd, lastFlushTime := lft, sock := so,
          telemetrySock := ts, nextSock := nx, sentDatagrams := sd } := by
  unfold telemetryFlushStep
  dsimp only
  split
  · obtain ⟨so, ts, nx, sd, hEq⟩ :=
      xmitPacket_true_shape s1 (flushTelemetry s1) o2
    rw [hEq]
    split <;> exact ⟨_, _, _, _, _, _, _, _, _, _, _, _, rfl⟩
  · exact ⟨_, _, _, _, _, _, _, _, _, _, _, _, rfl⟩

/-- `_send_to_server` records its payload in the `serverCalls` trace
and otherwise may touch only the counters, the flush timestamp, the
sockets and the datagram trace: the buffer, the configuration and the
flush-thread state are untouched. -/
theorem sendToServer_shape (s : DState) (p : String) (o1 o2 : SendOutcome) (now : ℚ) :
    ∃ mc ec scc bs bd ps pd lft so ts nx sd,
      sendToServer s p o1 o2 now =
        { s with
          metricsCount := mc, eventsCount := ec, serviceChecksCount := scc,
          bytesSent := bs, bytesDropped := bd, packetsSent := ps,
          packetsDropped := pd, lastFlushTime := lft, sock := so,
          telemetrySock := ts, nextSock := nx, sentDatagrams := sd,
          serverCalls := s.serverCalls ++ [p] } := by
  unfold sendToServer
  dsimp only
  obtain ⟨so1, ts1, nx1, sd1, ps1, bs1, bd1, pd1, hEq1⟩ :=
    xmitPacket_shape { s with serverCalls := s.serverCalls ++ [p] }
      (p ++ "\n") false o1
  rw [hEq1]
  obtain ⟨mc, ec, scc, bs, bd, ps, pd, lft, so, ts, nx, sd, hEq2⟩ :=
    telemetryFlushStep_shape
      { s with
        serverCalls := s.serverCalls ++ [p], sock := so1,
        telemetrySock := ts1, nextSock := nx1, sentDatagrams := sd1,
        packetsSent := ps1, bytesSent := bs1, bytesDropped := bd1,
        packetsDropped := pd1 } o2 now
  rw [hEq2]
  exact ⟨_, _, _, _, _, _, _, _, _, _, _, _, rfl⟩

/-- `flush` empties the buffer; when it was non-empty the joined
payload is handed to `_send_to_server` as one call, when it was empty
nothing happens at all. -/
theorem flush_shape (s : DState) (o1 o2 : SendOutcome) (now : ℚ) :
    (s.buffer ≠ [] ∧
      ∃ mc ec scc bs bd ps pd lft so ts nx sd,
        flush s o1 o2 now =
          { s with
            metricsCount := mc, eventsCount := ec, serviceChecksCount := scc,
            bytesSent := bs, bytesDropped := bd, packetsSent := ps,
            packetsDropped := pd, lastFlushTime := lft, sock := so,
            telemetrySock := ts, nextSock := nx, sentDatagrams := sd,
            buffer := [], currentBufferTotalSize := 0,
            serverCalls := s.serverCalls ++
              [String.intercalate "\n" s.buffer] }) ∨
    (s.buffer = [] ∧ flush s o1 o2 now = s) := by
  unfold flush
  split
  · next hne =>
    obtain ⟨mc, ec, scc, bs, bd, ps, pd, lft, so, ts, nx, sd, hEq⟩ :=
      sendToServer_shape s (String.intercalate "\n" s.buffer) o1 o2 now
    rw [hEq]
    exact Or.inl ⟨hne, mc, ec, scc, bs, bd, ps, pd, lft, so, ts, nx, sd, rfl⟩
  · next h =>
    simp only [ne_eq, not_not] at h
    exact Or.inr ⟨h, rfl⟩

/-- The drop-count block never touches the sockets or the datagram
trace. -/
theorem xmitDropCount_sock (x : DState) (p : String) (t : Bool) :
    (xmitDropCount x p t).sock = x.sock ∧
    (xmitDropCount x p t).telemetrySock = x.telemetrySock ∧
    (xmitDropCount x p t).sentDatagrams = x.sentDatagrams := by
  unfold xmitDropCount
  split <;> exact ⟨rfl, rfl, rfl⟩

/-- With the main socket already open, a non-telemetry
`_xmit_packet` skips the lazy socket creation. -/
theorem ensureSock_main_open (s : DState) (h : Nat) (hsock : s.sock = some h) :
    ensureSock s false = s := by
  unfold ensureSock
  rw [if_neg (by simp), hsock]

/-- Before the telemetry window has elapsed, `_send_to_server` leaves
`metrics_count` alone (only the telemetry flush step can reset it). -/
theorem sendToServer_metricsCount_not_due (s : DState) (p : String)
    (o1 o2 : SendOutcome) (now : ℚ)
    (h : ¬(s.lastFlushTime + s.telemetryFlushInterval < now)) :
    (sendToServer s p o1 o2 now).metricsCount = s.metricsCount := by
  unfold sendToServer
  dsimp only
  obtain ⟨so1, ts1, nx1, sd1, ps1, bs1, bd1, pd1, hEq1⟩ :=
    xmitPacket_shape { s with serverCalls := s.serverCalls ++ [p] }
      (p ++ "\n") false o1
  rw [hEq1]
  unfold telemetryFlushStep
  dsimp only
  rw [if_neg (by simp [isTelemetryFlushTime, h])]

/-- Before the telemetry window has elapsed, `flush` leaves
`metrics_count` alone. -/
theorem flush_metricsCount_not_due (s : DState) (o1 o2 : SendOutcome) (now : ℚ)
    (h : ¬(s.lastFlushTime + s.telemetryFlushInterval < now)) :
    (flush s o1 o2 now).metricsCount = s.metricsCount := by
  unfold flush
  split
  · unfold resetBuffer
    exact sendToServer_metricsCount_not_due s _ o1 o2 now h
  · rfl

/-- Before the telemetry window has elapsed, neither send path
changes `metrics_count`. -/
theorem sendDispatch_metricsCount_not_due (s : DState) (p : String)
    (o1 o2 : SendOutcome) (now : ℚ)
    (h : ¬(s.lastFlushTime + s.telemetryFlushInterval < now)) :
    (sendDispatch s p o1 o2 now).metricsCount = s.metricsCount := by
  unfold sendDispatch
  match hm : s.sendMode with
  | .direct => exact sendToServer_metricsCount_not_due s p o1 o2 now h
  | .buffered =>
    unfold sendToBuffer
    dsimp only
    split
    · exact flush_metricsCount_not_due s o1 o2 now h
    · rfl

/-- Replacing the single character newline by backslash-n is the
per-character substitution: every newline occurrence is rewritten and
no other character is altered. -/
theorem pyReplace_newline (l : List Char) :
    pyReplace ['\n'] ['\\', 'n'] l = newlineEscSpec l := by
  induction l with
  | nil => simp [pyReplace, newlineEscSpec]
  | cons c t ih =>
    by_cases hc : c = '\n'
    · subst hc
      rw [pyReplace, if_pos ⟨by simp, by simp [List.isPrefixOf]⟩]
      simp [newlineEscSpec, ih]
    · rw [pyReplace, if_neg (by simp [List.isPrefixOf, Ne.symm hc])]
      simp only [newlineEscSpec, List.flatMap_cons, if_neg hc]
      simp [newlineEscSpec] at ih
      simp [ih]

/-- The single-scan specification on a string starting with a
newline. -/
theorem scEscSpec_newline_cons (t : List Char) :
    scEscSpec ('\n' :: t) = '\\' :: 'n' :: scEscSpec t := by
  cases t with
  | nil => simp [scEscSpec]
  | cons c2 t2 => simp [scEscSpec]

/-- The two-pass service-check escaping (newline replacement followed
by the "m:" replacement) equals the single left-to-right scan
`scEscSpec`: the newline pass can neither create nor destroy an "m:"
occurrence. -/
theorem pyReplace_sc_aux : ∀ (n : Nat) (l : List Char), l.length ≤ n →
    pyReplace ['m', ':'] ['m', '\\', ':'] (pyReplace ['\n'] ['\\', 'n'] l) =
      scEscSpec l := by
  intro n
  induction n with
  | zero =>
    intro l hl
    have hnil : l = [] := List.eq_nil_of_length_eq_zero (Nat.le_zero.mp hl)
    subst hnil
    simp [pyReplace, scEscSpec]
  | succ n ih =>
    intro l hl
    match l with
    | [] => simp [pyReplace, scEscSpec]
    | [c] =>
      by_cases hc : c = '\n'
      · subst hc
        simp [pyReplace, scEscSpec, List.isPrefixOf]
      · simp [pyReplace, scEscSpec, List.isPrefixOf, hc, Ne.symm hc]
    | c :: c2 :: t =>
      have ht2 : t.length ≤ n := by
        simp only [List.length_cons] at hl
        omega
      have ht1 : (c2 :: t).length ≤ n := by
        simp only [List.length_cons] at hl ⊢
        omega
      by_cases hm : c = 'm' ∧ c2 = ':'
      · obtain ⟨hm1, hm2⟩ := hm
        subst hm1
        subst hm2
        rw [show pyReplace ['\n'] ['\\', 'n'] ('m' :: ':' :: t) =
            'm' :: ':' :: pyReplace ['\n'] ['\\', 'n'] t from by
          rw [pyReplace, if_neg (by simp [List.isPrefixOf])]
          rw [pyReplace, if_neg (by simp [List.isPrefixOf])]]
        rw [pyReplace, if_pos ⟨by simp, by simp [List.isPrefixOf]⟩]
        simp [scEscSpec, ih t ht2]
      · by_cases hc : c = '\n'
        · subst hc
          rw [show pyReplace ['\n'] ['\\', 'n'] ('\n' :: c2 :: t) =
              '\\' :: 'n' :: pyReplace ['\n'] ['\\', 'n'] (c2 :: t) from by
            rw [pyReplace, if_pos ⟨by simp, by simp [List.isPrefixOf]⟩]
            rfl]
          rw [pyReplace, if_neg (by simp [List.isPrefixOf])]
          rw [pyReplace, if_neg (by simp [List.isPrefixOf])]
          rw [ih (c2 :: t) ht1]
          simp [scEscSpec]
        · have hinner : pyReplace ['\n'] ['\\', 'n'] (c :: c2 :: t) =
              c :: pyReplace ['\n'] ['\\', 'n'] (c2 :: t) := by
            rw [pyReplace, if_neg (by simp [List.isPrefixOf, Ne.symm hc])]
          by_cases hcm : c = 'm'
          · subst hcm
            have hc2 : c2 ≠ ':' := fun h => hm ⟨rfl, h⟩
            by_cases hc2n : c2 = '\n'
            · subst hc2n
              rw [hinner]
              rw [show pyReplace ['\n'] ['\\', 'n'] ('\n' :: t) =
                  '\\' :: 'n' :: pyReplace ['\n'] ['\\', 'n'] t from by
                rw [pyReplace, if_pos ⟨by simp, by simp [List.isPrefixOf]⟩]
                rfl]
              rw [pyReplace, if_neg (by simp [List.isPrefixOf])]
              rw [pyReplace, if_neg (by simp [List.isPrefixOf])]
              rw [pyReplace, if_neg (by simp [List.isPrefixOf])]
              rw [ih t ht2]
              simp [scEscSpec, hc2, scEscSpec_newline_cons]
            · rw [hinner]
              rw [show pyReplace ['\n'] ['\\', 'n'] (c2 :: t) =
                  c2 :: pyReplace ['\n'] ['\\', 'n'] t from by
                rw [pyReplace, if_neg (by simp [List.isPrefixOf, Ne.symm hc2n])]]
              rw [pyReplace, if_neg (by simp [List.isPrefixOf, Ne.symm hc2])]
              rw [show (c2 :: pyReplace ['\n'] ['\\', 'n'] t) =
                  pyReplace ['\n'] ['\\', 'n'] (c2 :: t) from by
                rw [pyReplace, if_neg (by simp [List.isPrefixOf, Ne.symm hc2n])]]
              rw [ih (c2 :: t) ht1]
              simp [scEscSpec, hc2]
          · rw [hinner]
            rw [pyReplace, if_neg (by simp [List.isPrefixOf, Ne.symm hcm])]
            rw [ih (c2 :: t) ht1]
            rw [show scEscSpec (c :: c2 :: t) = c :: scEscSpec (c2 :: t) from by
              rw [scEscSpec, if_neg (by simp [hcm]), if_neg hc]]

/-! ### Claims -/

/-- The length of a string built from an explicit character list. -/
theorem string_mk_length (l : List Char) : (String.mk l).length = l.length := rfl



/-- C1: appending a packet through the buffered send path flushes
exactly once beforehand when the buffer's running size plus the
packet's length plus one would exceed the configured maximum payload
size — the buffered packets are joined with a newline and handed to
`_send_to_server` as one payload (the degenerate empty-buffer flush
hands nothing, matching `flush`'s no-op on an empty buffer), the
buffer restarts from empty, and the offending packet becomes its sole
content with total size its length plus one; when the threshold is
not exceeded no flush occurs and the packet is appended with the
total size growing by its length plus one. -/
theorem c1_buffered_append_flush (s : DState) (p : String)
    (o1 o2 : SendOutcome) (now : ℚ)
    (hinv : s.buffer = [] → s.currentBufferTotalSize = 0) :
    (shouldFlush s p.length = true →
      (sendToBuffer s p o1 o2 now).buffer = [p] ∧
      (sendToBuffer s p o1 o2 now).currentBufferTotalSize = p.length + 1 ∧
      (sendToBuffer s p o1 o2 now).serverCalls =
        s.serverCalls ++
          (if s.buffer = [] then []
           else [String.intercalate "\n" s.buffer])) ∧
    (shouldFlush s p.length = false →
      (sendToBuffer s p o1 o2 now).buffer = s.buffer ++ [p] ∧
      (sendToBuffer s p o1 o2 now).currentBufferTotalSize =
        s.currentBufferTotalSize + p.length + 1 ∧
      (sendToBuffer s p o1 o2 now).serverCalls = s.serverCalls) := by
  constructor
  · intro hsf
    unfold sendToBuffer
    rw [if_pos hsf]
    rcases flush_shape s o1 o2 now with
      ⟨hne, mc, ec, scc, bs, bd, ps, pd, lft, so, ts, nx, sd, hEq⟩ | ⟨hb, hEq⟩
    · rw [hEq, if_neg hne]
      exact ⟨rfl, by simp, rfl⟩
    · have h0 := hinv hb
      rw [hEq, if_pos hb]
      exact ⟨by simp [hb], by simp [h0], by simp⟩
  · intro hsf
    unfold sendToBuffer
    rw [if_neg (by simp [hsf])]
    exact ⟨rfl, rfl, rfl⟩

/-- C1 witness: both branches of the claim instantiated — a buffer
holding "ab" with capacity 10 overflows on appending the 7-character
packet and flushes first; the same append with capacity 100 does not
flush. -/
theorem c1_buffered_append_flush_witness :
    (shouldFlush smallCapState ("cdefghi" : String).length = true ∧
      (sendToBuffer smallCapState "cdefghi"
          SendOutcome.ok SendOutcome.ok 0).buffer = ["cdefghi"] ∧
      (sendToBuffer smallCapState "cdefghi"
          SendOutcome.ok SendOutcome.ok 0).currentBufferTotalSize =
        ("cdefghi" : String).length + 1 ∧
      (sendToBuffer smallCapState "cdefghi"
          SendOutcome.ok SendOutcome.ok 0).serverCalls =
        smallCapState.serverCalls ++
          (if smallCapState.buffer = [] then []
           else [String.intercalate "\n" smallCapState.buffer])) ∧
    (shouldFlush bigCapState ("cdefghi" : String).length = false ∧
      (sendToBuffer bigCapState "cdefghi"
          SendOutcome.ok SendOutcome.ok 0).buffer = ["ab", "cdefghi"] ∧
      (sendToBuffer bigCapState "cdefghi"
          SendOutcome.ok SendOutcome.ok 0).currentBufferTotalSize =
        bigCapState.currentBufferTotalSize + ("cdefghi" : String).length + 1 ∧
      (sendToBuffer bigCapState "cdefghi"
          SendOutcome.ok SendOutcome.ok 0).serverCalls =
        bigCapState.serverCalls) := by
  refine ⟨⟨by decide, ?_⟩, ⟨by decide, ?_⟩⟩
  · exact (c1_buffered_append_flush smallCapState "cdefghi"
      SendOutcome.ok SendOutcome.ok 0 (by decide)).1 (by decide)
  · have h := (c1_buffered_append_flush bigCapState "cdefghi"
      SendOutcome.ok SendOutcome.ok 0 (by decide)).2 (by decide)
    exact ⟨h.1, h.2.1, h.2.2⟩

/-- C2 counterexample: with capacity 4 and an empty buffer, appending
a single 10-character packet leaves the buffer's total size at 11,
which exceeds the capacity — the claimed invariant fails for a packet
whose length plus one already exceeds the capacity on its own. -/
theorem c2_size_invariant_counterexample :
    (sendToBuffer tinyCapState "aaaaaaaaaa"
        SendOutcome.ok SendOutcome.ok 0).currentBufferTotalSize >
      tinyCapState.maxPayloadSize := by
  decide

/-- C2 amended: after any buffered append the buffer's total size
stays within the configured capacity, provided the appended packet's
length plus one fits in the capacity on its own and the state's size
accounting is consistent (an empty buffer has total size zero, as
`_reset_buffer` establishes).  The unamended claim fails exactly for
a single oversized packet, which the code appends after a flush that
cannot make room. -/
theorem c2_size_invariant_amended (s : DState) (p : String)
    (o1 o2 : SendOutcome) (now : ℚ)
    (hinv : s.buffer = [] → s.currentBufferTotalSize = 0)
    (hp : p.length + 1 ≤ s.maxPayloadSize) :
    (sendToBuffer s p o1 o2 now).currentBufferTotalSize ≤ s.maxPayloadSize := by
  unfold sendToBuffer
  split
  · rcases flush_shape s o1 o2 now with
      ⟨hne, mc, ec, scc, bs, bd, ps, pd, lft, so, ts, nx, sd, hEq⟩ | ⟨hb, hEq⟩
    · rw [hEq]
      dsimp only
      omega
    · rw [hEq]
      have h0 := hinv hb
      dsimp only
      omega
  · next hsf =>
    simp only [shouldFlush, decide_eq_true_eq, Bool.not_eq_true] at hsf
    dsimp only
    omega

/-- C3 counterexample: in a state whose telemetry window has elapsed
(last flush at 0, interval 10, now 11), the telemetry transmission
succeeds, and immediately afterwards `packets_sent` is 1, not 0: the
code resets the counters but then counts the telemetry packet itself
as sent, so not all seven counters are zero. -/
theorem c3_telemetry_reset_counterexample :
    isTelemetryFlushTime testState 11 = true ∧
    (xmitPacket testState (flushTelemetry testState) true SendOutcome.ok).2 = true ∧
    (telemetryFlushStep testState SendOutcome.ok 11).packetsSent = 1 := by
  have ht : isTelemetryFlushTime testState 11 = true := by
    simp only [isTelemetryFlushTime, testState, Bool.true_and,
      decide_eq_true_eq]
    norm_num
  refine ⟨ht, rfl, ?_⟩
  simp only [telemetryFlushStep, ht]
  rfl

/-- C3 amended: when the telemetry window has elapsed, a successful
telemetry transmission zeroes the metrics, events, service-checks,
bytes-dropped and packets-dropped counters and stamps the flush time,
but `packets_sent` ends at 1 and `bytes_sent` at the telemetry
packet's length because the telemetry packet itself is then counted
into the fresh window; a failed transmission keeps all accumulated
counters, stamps the flush time anyway, and adds the telemetry
packet's length to `bytes_dropped` and one to `packets_dropped`. -/
theorem c3_telemetry_reset_amended (s1 : DState) (o2 : SendOutcome) (now : ℚ)
    (ht : isTelemetryFlushTime s1 now = true) :
    ((xmitPacket s1 (flushTelemetry s1) true o2).2 = true →
      (telemetryFlushStep s1 o2 now).metricsCount = 0 ∧
      (telemetryFlushStep s1 o2 now).eventsCount = 0 ∧
      (telemetryFlushStep s1 o2 now).serviceChecksCount = 0 ∧
      (telemetryFlushStep s1 o2 now).bytesDropped = 0 ∧
      (telemetryFlushStep s1 o2 now).packetsDropped = 0 ∧
      (telemetryFlushStep s1 o2 now).packetsSent = 1 ∧
      (telemetryFlushStep s1 o2 now).bytesSent = (flushTelemetry s1).length ∧
      (telemetryFlushStep s1 o2 now).lastFlushTime = now) ∧
    ((xmitPacket s1 (flushTelemetry s1) true o2).2 = false →
      (telemetryFlushStep s1 o2 now).metricsCount = s1.metricsCount ∧
      (telemetryFlushStep s1 o2 now).eventsCount = s1.eventsCount ∧
      (telemetryFlushStep s1 o2 now).serviceChecksCount = s1.serviceChecksCount ∧
      (telemetryFlushStep s1 o2 now).bytesSent = s1.bytesSent ∧
      (telemetryFlushStep s1 o2 now).packetsSent = s1.packetsSent ∧
      (telemetryFlushStep s1 o2 now).bytesDropped =
        s1.bytesDropped + (flushTelemetry s1).length ∧
      (telemetryFlushStep s1 o2 now).packetsDropped = s1.packetsDropped + 1 ∧
      (telemetryFlushStep s1 o2 now).lastFlushTime = now) := by
  obtain ⟨so, ts, nx, sd, hEq⟩ :=
    xmitPacket_true_shape s1 (flushTelemetry s1) o2
  constructor
  · intro hok
    unfold telemetryFlushStep
    dsimp only
    rw [if_pos ht, if_pos hok, hEq]
    unfold resetTelemetry
    exact ⟨rfl, rfl, rfl, rfl, rfl, by simp, by simp, rfl⟩
  · intro hfail
    unfold telemetryFlushStep
    dsimp only
    rw [if_pos ht, if_neg (by simp [hfail]), hEq]
    exact ⟨rfl, rfl, rfl, rfl, rfl, rfl, rfl, rfl⟩

/-- C3 amended witness: the elapsed-window state with a succeeding
telemetry send ends with the five reset counters at zero and
`packets_sent` 1; with a timing-out send it keeps `metrics_count`
and increments `packets_dropped`. -/
theorem c3_telemetry_reset_amended_witness :
    ((telemetryFlushStep testState SendOutcome.ok 11).metricsCount = 0 ∧
      (telemetryFlushStep testState SendOutcome.ok 11).packetsSent = 1 ∧
      (telemetryFlushStep testState SendOutcome.ok 11).lastFlushTime = 11) ∧
    ((telemetryFlushStep testState SendOutcome.timeout 11).metricsCount =
        testState.metricsCount ∧
      (telemetryFlushStep testState SendOutcome.timeout 11).packetsDropped =
        testState.packetsDropped + 1) := by
  have ht : isTelemetryFlushTime testState 11 = true := by
    simp only [isTelemetryFlushTime, testState, Bool.true_and,
      decide_eq_true_eq]
    norm_num
  have h1 := (c3_telemetry_reset_amended testState SendOutcome.ok 11 ht).1 rfl
  have h2 := (c3_telemetry_reset_amended testState SendOutcome.timeout 11 ht).2 rfl
  exact ⟨⟨h1.1, h1.2.2.2.2.2.1, h1.2.2.2.2.2.2.2⟩,
    ⟨h2.1, h2.2.2.2.2.2.2.1⟩⟩

/-- C4 counterexample: for the two-byte, one-character packet
consisting of the letter e with an acute accent, a send failing with
EMSGSIZE increments `bytes_dropped` by 1 (Python `len` of the
string), not by its byte length 2 — the claimed "incremented by
exactly that packet's byte length" is false for non-ASCII packets. -/
theorem c4_never_raises_counterexample :
    (xmitPacket testState "é" false
        (SendOutcome.sockErr EMSGSIZE)).1.bytesDropped ≠
      testState.bytesDropped + ("é" : String).utf8ByteSize := by
  decide

/-- C4 amended: the transmit path returns normally for every send
outcome (no exception propagates); an EMSGSIZE failure returns false,
leaves both sockets and the datagram trace unchanged and — only when
telemetry is enabled and the packet is not itself telemetry —
increments `bytes_dropped` by the packet's length in characters
(Python `len`, equal to the byte length only for ASCII payloads) and
`packets_dropped` by one; a resolution failure (gaierror/herror) or a
socket error with any errno other than EAGAIN, ENOBUFS and EMSGSIZE
additionally closes and discards both sockets. -/
theorem c4_xmit_error_handling_amended (s : DState) (p : String) (t : Bool)
    (o : SendOutcome) (h : Nat) (hsock : s.sock = some h) :
    (∃ r, xmitPacketE s p t o = Except.ok r) ∧
    ((xmitPacket s p false (SendOutcome.sockErr EMSGSIZE)).2 = false ∧
      (xmitPacket s p false (SendOutcome.sockErr EMSGSIZE)).1.sock = some h ∧
      (xmitPacket s p false (SendOutcome.sockErr EMSGSIZE)).1.telemetrySock =
        s.telemetrySock ∧
      (xmitPacket s p false (SendOutcome.sockErr EMSGSIZE)).1.sentDatagrams =
        s.sentDatagrams ∧
      (s.telemetry = true →
        (xmitPacket s p false (SendOutcome.sockErr EMSGSIZE)).1.bytesDropped =
          s.bytesDropped + p.length ∧
        (xmitPacket s p false (SendOutcome.sockErr EMSGSIZE)).1.packetsDropped =
          s.packetsDropped + 1) ∧
      (s.telemetry = false →
        (xmitPacket s p false (SendOutcome.sockErr EMSGSIZE)).1.bytesDropped =
          s.bytesDropped ∧
        (xmitPacket s p false (SendOutcome.sockErr EMSGSIZE)).1.packetsDropped =
          s.packetsDropped) ∧
      (xmitPacket s p true (SendOutcome.sockErr EMSGSIZE)).1.bytesDropped =
        s.bytesDropped ∧
      (xmitPacket s p true (SendOutcome.sockErr EMSGSIZE)).1.packetsDropped =
        s.packetsDropped) ∧
    ((xmitPacket s p t SendOutcome.gaierror).1.sock = none ∧
      (xmitPacket s p t SendOutcome.gaierror).1.telemetrySock = none ∧
      (xmitPacket s p t SendOutcome.gaierror).2 = false ∧
      (xmitPacket s p t SendOutcome.herror).1.sock = none ∧
      (xmitPacket s p t SendOutcome.herror).1.telemetrySock = none ∧
      (xmitPacket s p t SendOutcome.herror).2 = false) ∧
    (∀ e, e ≠ EAGAIN → e ≠ ENOBUFS → e ≠ EMSGSIZE →
      (xmitPacket s p t (SendOutcome.sockErr e)).1.sock = none ∧
      (xmitPacket s p t (SendOutcome.sockErr e)).1.telemetrySock = none ∧
      (xmitPacket s p t (SendOutcome.sockErr e)).2 = false) := by
  have hens := ensureSock_main_open s h hsock
  have hMsg : xmitPacketE s p false (SendOutcome.sockErr EMSGSIZE) =
      .ok (xmitDropCount s p false, false) := by
    unfold xmitPacketE
    dsimp only
    rw [hens, if_neg (by decide), if_neg (by decide), if_pos rfl]
  have hMsgT : ∀ t', xmitPacketE s p t' (SendOutcome.sockErr EMSGSIZE) =
      .ok (xmitDropCount (ensureSock s t') p t', false) := by
    intro t'
    unfold xmitPacketE
    dsimp only
    rw [if_neg (by decide), if_neg (by decide), if_pos rfl]
  refine ⟨?_, ⟨?_, ?_, ?_, ?_, ?_, ?_, ?_, ?_⟩, ⟨?_, ?_, ?_, ?_, ?_, ?_⟩, ?_⟩
  · obtain ⟨so, ts, nx, sd, ps, bs, bd, pd, b, hEq⟩ := xmitPacketE_shape s p t o
    exact ⟨_, hEq⟩
  · rw [xmitPacket, hMsg]
  · rw [xmitPacket, hMsg]
    exact (xmitDropCount_sock s p false).1.trans hsock
  · rw [xmitPacket, hMsg]
    exact (xmitDropCount_sock s p false).2.1
  · rw [xmitPacket, hMsg]
    exact (xmitDropCount_sock s p false).2.2
  · intro htel
    rw [xmitPacket, hMsg]
    unfold xmitDropCount
    rw [if_pos (by simp [htel])]
    exact ⟨rfl, rfl⟩
  · intro htel
    rw [xmitPacket, hMsg]
    unfold xmitDropCount
    rw [if_neg (by simp [htel])]
    exact ⟨rfl, rfl⟩
  · rw [xmitPacket, hMsgT true]
    unfold xmitDropCount
    rw [if_neg (by simp)]
    obtain ⟨so2, ts2, nx2, sd2, hEq2⟩ :
      ∃ so2 ts2 nx2 sd2, ensureSock s true =
        { s with
          sock := so2, telemetrySock := ts2, nextSock := nx2,
          sentDatagrams := sd2 } := by
      unfold ensureSock
      split <;> split <;> exact ⟨_, _, _, _, rfl⟩
    rw [hEq2]
  · rw [xmitPacket, hMsgT true]
    unfold xmitDropCount
    rw [if_neg (by simp)]
    obtain ⟨so2, ts2, nx2, sd2, hEq2⟩ :
      ∃ so2 ts2 nx2 sd2, ensureSock s true =
        { s with
          sock := so2, telemetrySock := ts2, nextSock := nx2,
          sentDatagrams := sd2 } := by
      unfold ensureSock
      split <;> split <;> exact ⟨_, _, _, _, rfl⟩
    rw [hEq2]
  · rw [xmitPacket]
    unfold xmitPacketE
    dsimp only
    exact ((xmitDropCount_sock _ p t).1.trans rfl)
  · rw [xmitPacket]
    unfold xmitPacketE
    dsimp only
    exact ((xmitDropCount_sock _ p t).2.1.trans rfl)
  · rw [xmitPacket]
    unfold xmitPacketE
    dsimp only
  · rw [xmitPacket]
    unfold xmitPacketE
    dsimp only
    exact ((xmitDropCount_sock _ p t).1.trans rfl)
  · rw [xmitPacket]
    unfold xmitPacketE
    dsimp only
    exact ((xmitDropCount_sock _ p t).2.1.trans rfl)
  · rw [xmitPacket]
    unfold xmitPacketE
    dsimp only
  · intro e h1 h2 h3
    have hE : xmitPacketE s p t (SendOutcome.sockErr e) =
        .ok (xmitDropCount (closeSocket (ensureSock s t)) p t, false) := by
      unfold xmitPacketE
      dsimp only
      rw [if_neg h1, if_neg h2, if_neg h3]
    rw [xmitPacket, hE]
    exact ⟨(xmitDropCount_sock _ p t).1.trans rfl,
      (xmitDropCount_sock _ p t).2.1.trans rfl, rfl⟩

/-- C4 witness: in the test state (open socket 0, telemetry on), the
transmit path returns normally on an unexpected exception, keeps the
socket and counts character-length drops on EMSGSIZE, and discards
the socket on gaierror and on errno 99. -/
theorem c4_xmit_error_handling_amended_witness :
    (∃ r, xmitPacketE testState "x" false SendOutcome.otherExc =
      Except.ok r) ∧
    (xmitPacket testState "x" false
        (SendOutcome.sockErr EMSGSIZE)).1.sock = some 0 ∧
    (xmitPacket testState "x" false
        (SendOutcome.sockErr EMSGSIZE)).1.bytesDropped =
      testState.bytesDropped + ("x" : String).length ∧
    (xmitPacket testState "x" false SendOutcome.gaierror).1.sock = none ∧
    (xmitPacket testState "x" false (SendOutcome.sockErr 99)).1.sock = none := by
  obtain ⟨h1, h2, h3, h4⟩ :=
    c4_xmit_error_handling_amended testState "x" false SendOutcome.otherExc 0 rfl
  exact ⟨h1, h2.2.1, (h2.2.2.2.2.1 rfl).1, h3.1,
    (h4 99 (by decide) (by decide) (by decide)).1⟩

/-- C5 counterexample: an event with empty title and message (joint
encoded size 0, far under the 8192-byte limit) but a 9000-character
hostname is rejected with a ValueError, because the code checks the
length of the whole serialized event string, not of title+message. -/
theorem c5_event_size_counterexample :
    (escapeEventContent "").utf8ByteSize +
        (escapeEventContent "").utf8ByteSize ≤ 8 * 1024 ∧
    event testState "" "" none none none none none [] (some bigHost)
      SendOutcome.ok SendOutcome.ok 0 = Except.error PyExc.valueError := by
  have hesc : escapeEventContent "" = "" := by
    simp [escapeEventContent, pyReplace]
  have hblen : bigHost.length = 9000 := by
    rw [bigHost, string_mk_length]
    exact List.length_replicate 9000 'a'
  have hbne : bigHost ≠ "" := by
    intro h
    rw [h] at hblen
    exact absurd hblen (by decide)
  have hpay : eventPayload testState "" "" none none none none none []
      (some bigHost) = ("_e\x7b0,0\x7d:|" ++ "|h:") ++ bigHost := by
    unfold eventPayload
    dsimp only [testState]
    rw [hesc, if_pos hbne, if_neg (by decide)]
    congr 1
  have hbig : (eventPayload testState "" "" none none none none none []
      (some bigHost)).length > 8 * 1024 := by
    rw [hpay, String.length_append, hblen]
    decide
  constructor
  · rw [hesc]
    decide
  · unfold event
    dsimp only
    rw [if_pos hbig]

/-- C5 amended: the event operation raises a ValueError exactly when
the whole serialized event string (title, message and every optional
field included) is longer than 8192 characters; on rejection nothing
happens (no counter increment, no send-path effect), otherwise the
telemetry event counter is bumped when telemetry is enabled and the
serialized event is handed to the send path. -/
theorem c5_event_size_amended (s : DState) (title message : String)
    (alertTy aggKey srcTy : Option String) (dateH : Option Int)
    (prio : Option String) (tags : List String) (host : Option String)
    (o1 o2 : SendOutcome) (now : ℚ) :
    ((eventPayload s title message alertTy aggKey srcTy dateH prio
        tags host).length > 8 * 1024 →
      event s title message alertTy aggKey srcTy dateH prio tags host
        o1 o2 now = Except.error PyExc.valueError) ∧
    ((eventPayload s title message alertTy aggKey srcTy dateH prio
        tags host).length ≤ 8 * 1024 →
      (s.telemetry = true →
        event s title message alertTy aggKey srcTy dateH prio tags host
          o1 o2 now =
        Except.ok (sendDispatch
          { s with eventsCount := s.eventsCount + 1 }
          (eventPayload s title message alertTy aggKey srcTy dateH prio
            tags host) o1 o2 now)) ∧
      (s.telemetry = false →
        event s title message alertTy aggKey srcTy dateH prio tags host
          o1 o2 now =
        Except.ok (sendDispatch s
          (eventPayload s title message alertTy aggKey srcTy dateH prio
            tags host) o1 o2 now))) := by
  constructor
  · intro hbig
    unfold event
    dsimp only
    rw [if_pos hbig]
  · intro hsmall
    constructor
    · intro htel
      unfold event
      dsimp only
      rw [if_neg (by omega), if_pos htel]
    · intro htel
      unfold event
      dsimp only
      rw [if_neg (by omega), if_neg (by simp [htel])]

/-- C5 amended witness: the empty event (9-character payload) passes
the size check and reaches the send path with the event counter
bumped; the bigHost event is rejected. -/
theorem c5_event_size_amended_witness :
    event testState "" "" none none none none none [] none
        SendOutcome.ok SendOutcome.ok 0 =
      Except.ok (sendDispatch
        { testState with eventsCount := testState.eventsCount + 1 }
        (eventPayload testState "" "" none none none none none [] none)
        SendOutcome.ok SendOutcome.ok 0) ∧
    event testState "" "" none none none none none [] (some bigHost)
        SendOutcome.ok SendOutcome.ok 0 = Except.error PyExc.valueError := by
  have hesc : escapeEventContent "" = "" := by
    simp [escapeEventContent, pyReplace]
  have hblen : bigHost.length = 9000 := by
    rw [bigHost, string_mk_length]
    exact List.length_replicate 9000 'a'
  have hbne : bigHost ≠ "" := by
    intro h
    rw [h] at hblen
    exact absurd hblen (by decide)
  constructor
  · refine (c5_event_size_amended testState "" "" none none none none none
      [] none SendOutcome.ok SendOutcome.ok 0).2 ?_ |>.1 rfl
    unfold eventPayload
    dsimp only
    rw [hesc]
    decide
  · refine (c5_event_size_amended testState "" "" none none none none none
      [] (some bigHost) SendOutcome.ok SendOutcome.ok 0).1 ?_
    have hpay2 : eventPayload testState "" "" none none none none none []
        (some bigHost) = ("_e\x7b0,0\x7d:|" ++ "|h:") ++ bigHost := by
      unfold eventPayload
      dsimp only [testState]
      rw [hesc, if_pos hbne, if_neg (by decide)]
      congr 1
    rw [hpay2, String.length_append, hblen]
    decide

/-- C6: with sample rate 1, no tags, no namespace and no container id
the serialized metric is exactly name, colon, value, pipe, type; in
general the serializer follows the template in which the rate suffix
appears exactly when the sample rate differs from 1; and the full tag
list puts the caller-supplied tags before the constant (global) tags
whenever both are present. -/
theorem c6_serialize_metric (s : DState) (metric mtype value : String)
    (tags : List String) (rate : ℚ) :
    (s.nameSpace = none → s.containerId = none →
      serializeMetric s metric mtype value [] 1 =
        metric ++ ":" ++ value ++ "|" ++ mtype) ∧
    serializeMetric s metric mtype value tags rate =
      (match s.nameSpace with
       | some ns => ns ++ "."
       | none => "")
      ++ metric ++ ":" ++ value ++ "|" ++ mtype
      ++ (if rate ≠ 1 then "|@" ++ pyFloatStr rate else "")
      ++ (if tags ≠ [] then
            "|#" ++ String.intercalate "," (normalizeTags tags)
          else "")
      ++ (match s.containerId with
          | some cid => "|c:" ++ cid
          | none => "") ∧
    (s.constantTags ≠ [] → tags ≠ [] →
      addConstantTags s tags = tags ++ s.constantTags) := by
  refine ⟨?_, rfl, ?_⟩
  · intro h1 h2
    unfold serializeMetric
    rw [h1, h2]
    rw [if_neg (by simp), if_neg (by simp)]
    simp
  · intro h1 h2
    unfold addConstantTags
    rw [if_pos h1, if_pos h2]

/-- C6 witness: the bare serialization of gauge 123 on a client with
a constant tag, and the tag ordering for one caller tag. -/
theorem c6_serialize_metric_witness :
    serializeMetric tagState "users.online" "g" "123" [] 1 =
      "users.online" ++ ":" ++ "123" ++ "|" ++ "g" ∧
    addConstantTags tagState ["proto:http"] =
      ["proto:http"] ++ tagState.constantTags := by
  have h := c6_serialize_metric tagState "users.online" "g" "123"
    ["proto:http"] 1
  exact ⟨h.1 rfl rfl, h.2.2 (by decide) (by decide)⟩

/-- C10: a metric-reporting call whose value is None is a complete
no-op: the state — buffer, total size, every telemetry counter and
every trace — is returned unchanged and nothing is serialized or
sent. -/
theorem c10_none_value_noop (s : DState) (metric mtype : String)
    (tags : List String) (srOpt : Option ℚ) (r : ℚ)
    (o1 o2 : SendOutcome) (now : ℚ) :
    report s metric mtype none tags srOpt r o1 o2 now = s := rfl

/-- C9: on an enabled client with telemetry enabled, any
metric-reporting call with a non-None value bumps `metrics_count` by
exactly one before the sampling decision: when the sampling decision
discards the metric the call changes nothing but that counter (no
serialization, no send, no other state change), and whenever the
telemetry window has not elapsed (so no telemetry flush can reset the
counters mid-send) the net effect on `metrics_count` is exactly plus
one even when the metric is transmitted. -/
theorem c9_metrics_count_submitted (s : DState) (metric mtype v : String)
    (tags : List String) (srOpt : Option ℚ) (r : ℚ)
    (o1 o2 : SendOutcome) (now : ℚ)
    (hen : s.enabled = true) (htel : s.telemetry = true) :
    (¬(s.lastFlushTime + s.telemetryFlushInterval < now) →
      (report s metric mtype (some v) tags srOpt r o1 o2 now).metricsCount =
        s.metricsCount + 1) ∧
    (srOpt.getD s.defaultSampleRate ≠ 1 ∧ r > srOpt.getD s.defaultSampleRate →
      report s metric mtype (some v) tags srOpt r o1 o2 now =
        { s with metricsCount := s.metricsCount + 1 }) := by
  constructor
  · intro hnow
    unfold report
    dsimp only
    rw [if_neg (show ¬(s.enabled ≠ true) by simp [hen]), if_pos htel]
    dsimp only
    split
    · rfl
    · exact sendDispatch_metricsCount_not_due
        { s with metricsCount := s.metricsCount + 1 } _ o1 o2 now hnow
  · intro hsamp
    unfold report
    dsimp only
    rw [if_neg (show ¬(s.enabled ≠ true) by simp [hen]), if_pos htel]
    dsimp only
    rw [if_pos hsamp]

/-- C9 witness: in the test state (enabled, telemetry on, default
rate 1) a gauge report with explicit sample rate 0 and random draw 1
is sampled out yet increments `metrics_count`, and with rate 1 the
transmitted report also nets exactly plus one before the telemetry
window elapses (now 5, window 0 + 10). -/
theorem c9_metrics_count_submitted_witness :
    (report testState "users.online" "g" (some "123") [] (some 0) 1
        SendOutcome.ok SendOutcome.ok 5).metricsCount =
      testState.metricsCount + 1 ∧
    report testState "users.online" "g" (some "123") [] (some 0) 1
        SendOutcome.ok SendOutcome.ok 5 =
      { testState with metricsCount := testState.metricsCount + 1 } ∧
    (report testState "users.online" "g" (some "123") [] none 0
        SendOutcome.ok SendOutcome.ok 5).metricsCount =
      testState.metricsCount + 1 := by
  have h1 := c9_metrics_count_submitted testState "users.online" "g" "123"
    [] (some 0) 1 SendOutcome.ok SendOutcome.ok 5 rfl rfl
  have h2 := c9_metrics_count_submitted testState "users.online" "g" "123"
    [] none 0 SendOutcome.ok SendOutcome.ok 5 rfl rfl
  have hnow : ¬((testState.lastFlushTime : ℚ) +
      testState.telemetryFlushInterval < 5) := by
    norm_num [testState]
  exact ⟨h1.1 hnow, h1.2 ⟨by norm_num, by norm_num⟩, h2.1 hnow⟩

/-- C7: setting the buffering-disabled flag to its current value
changes nothing; disabling from the enabled state (with a live flush
thread) switches the send path to direct and stops the thread — one
final flush of any pending buffer content, the stop signal set, the
thread joined and the signal cleared, in that order; enabling from
the disabled state switches the send path to buffered and starts the
flush thread exactly when the flush interval exceeds the minimum
threshold.  (The toggle lock is modelled by the transition executing
atomically.) -/
theorem c7_disable_buffering_toggle (s : DState) (d : Bool)
    (o1 o2 : SendOutcome) (now : ℚ) :
    (s.disableBufferingFlag = d → setDisableBuffering s d o1 o2 now = s) ∧
    (s.disableBufferingFlag = false → d = true → s.flushThread = some () →
      (setDisableBuffering s d o1 o2 now).sendMode = SendMode.direct ∧
      (setDisableBuffering s d o1 o2 now).disableBufferingFlag = true ∧
      (setDisableBuffering s d o1 o2 now).flushThread = none ∧
      (setDisableBuffering s d o1 o2 now).flushThreadStop = false ∧
      (setDisableBuffering s d o1 o2 now).threadTrace =
        s.threadTrace ++
          [ThreadOp.stopSet, ThreadOp.joined, ThreadOp.stopCleared] ∧
      (setDisableBuffering s d o1 o2 now).buffer = [] ∧
      (setDisableBuffering s d o1 o2 now).serverCalls =
        s.serverCalls ++
          (if s.buffer = [] then []
           else [String.intercalate "\n" s.buffer])) ∧
    (s.disableBufferingFlag = true → d = false →
      (setDisableBuffering s d o1 o2 now).sendMode = SendMode.buffered ∧
      (setDisableBuffering s d o1 o2 now).disableBufferingFlag = false ∧
      (MIN_FLUSH_INTERVAL < s.flushInterval →
        (setDisableBuffering s d o1 o2 now).flushThread = some () ∧
        (setDisableBuffering s d o1 o2 now).threadTrace =
          s.threadTrace ++ [ThreadOp.started]) ∧
      (s.flushInterval ≤ MIN_FLUSH_INTERVAL →
        setDisableBuffering s d o1 o2 now =
          { s with
            disableBufferingFlag := false,
            sendMode := SendMode.buffered })) := by
  refine ⟨?_, ?_, ?_⟩
  · intro h
    unfold setDisableBuffering
    rw [if_pos h]
  · intro h1 h2 h3
    subst h2
    unfold setDisableBuffering
    rw [if_neg (show ¬(s.disableBufferingFlag = true) by simp [h1])]
    dsimp only
    rw [if_pos rfl]
    unfold stopFlushThread
    split
    · next heq =>
      rw [show ({ s with
          disableBufferingFlag := true,
          sendMode := SendMode.direct } : DState).flushThread =
        s.flushThread from rfl, h3] at heq
      exact absurd heq (by simp)
    · dsimp only
      rcases flush_shape { s with
          disableBufferingFlag := true, sendMode := SendMode.direct }
          o1 o2 now with
        ⟨hne, mc, ec, scc, bs, bd, ps, pd, lft, so, ts, nx, sd, hEq⟩ |
        ⟨hb, hEq⟩
      · rw [hEq]
        refine ⟨rfl, rfl, rfl, rfl, by simp, rfl, ?_⟩
        rw [if_neg (by simpa using hne)]
      · rw [hEq]
        refine ⟨rfl, rfl, rfl, rfl, by simp, by simpa using hb, ?_⟩
        rw [if_pos (by simpa using hb)]
        simp
  · intro h1 h2
    subst h2
    have hstep : setDisableBuffering s false o1 o2 now =
        startFlushThread { s with
          disableBufferingFlag := false, sendMode := SendMode.buffered } := by
      unfold setDisableBuffering
      rw [if_neg (show ¬(s.disableBufferingFlag = false) by simp [h1])]
      rfl
    rw [hstep]
    refine ⟨?_, ?_, ?_, ?_⟩
    · unfold startFlushThread
      split <;> rfl
    · unfold startFlushThread
      split <;> rfl
    · intro hgt
      unfold startFlushThread
      rw [if_neg (by simp [not_le.mpr hgt])]
      exact ⟨rfl, by simp⟩
    · intro hle
      unfold startFlushThread
      rw [if_pos (Or.inr hle)]

/-- C7 witness: the no-op toggle on the already-disabled test state;
the disable transition on the live-thread state (direct mode, thread
gone, stop signal clear, trace extended); and the enable transition
on the test state (buffered mode, thread started, interval 1 above
the 1/10000 minimum). -/
theorem c7_disable_buffering_toggle_witness :
    setDisableBuffering testState true SendOutcome.ok SendOutcome.ok 0 =
      testState ∧
    ((setDisableBuffering threadState true
        SendOutcome.ok SendOutcome.ok 0).sendMode = SendMode.direct ∧
      (setDisableBuffering threadState true
        SendOutcome.ok SendOutcome.ok 0).flushThread = none ∧
      (setDisableBuffering threadState true
        SendOutcome.ok SendOutcome.ok 0).flushThreadStop = false ∧
      (setDisableBuffering threadState true
        SendOutcome.ok SendOutcome.ok 0).threadTrace =
        threadState.threadTrace ++
          [ThreadOp.stopSet, ThreadOp.joined, ThreadOp.stopCleared]) ∧
    ((setDisableBuffering testState false
        SendOutcome.ok SendOutcome.ok 0).sendMode = SendMode.buffered ∧
      (setDisableBuffering testState false
        SendOutcome.ok SendOutcome.ok 0).flushThread = some ()) := by
  have h1 := (c7_disable_buffering_toggle testState true
    SendOutcome.ok SendOutcome.ok 0).1 rfl
  have h2 := (c7_disable_buffering_toggle threadState true
    SendOutcome.ok SendOutcome.ok 0).2.1 rfl rfl rfl
  have h3 := (c7_disable_buffering_toggle testState false
    SendOutcome.ok SendOutcome.ok 0).2.2 rfl rfl
  have hgt : MIN_FLUSH_INTERVAL < testState.flushInterval := by
    norm_num [MIN_FLUSH_INTERVAL, testState]
  exact ⟨h1, ⟨h2.1, h2.2.2.1, h2.2.2.2.1, h2.2.2.2.2.1⟩,
    ⟨h3.1, (h3.2.2.1 hgt).1⟩⟩

/-- C8: the event/service-check escaping functions are exactly the
claimed substitutions — `_escape_event_content` maps each newline to
the two-character sequence backslash-n and alters no other character
(the per-character substitution `newlineEscSpec`), and
`_escape_service_check_message` equals the single left-to-right scan
`scEscSpec` that additionally rewrites each occurrence of "m:" to
"m\:" and alters nothing else. -/
theorem c8_escape_functions (s : String) :
    escapeEventContent s = String.mk (newlineEscSpec s.data) ∧
    escapeServiceCheckMessage s = String.mk (scEscSpec s.data) :=
  ⟨congrArg String.mk (pyReplace_newline s.data),
    congrArg String.mk (pyReplace_sc_aux s.data.length s.data le_rfl)⟩

/-- C2 amended witness: capacity 10, buffer holding "ab" with size 3,
appending the 7-character packet flushes first and the resulting size
8 is within the capacity. -/
theorem c2_size_invariant_amended_witness :
    (sendToBuffer smallCapState "cdefghi"
        SendOutcome.ok SendOutcome.ok 0).currentBufferTotalSize ≤
      smallCapState.maxPayloadSize :=
  c2_size_invariant_amended smallCapState "cdefghi"
    SendOutcome.ok SendOutcome.ok 0 (by decide) (by decide)

end DogStatsd
